import Mathlib

/-! bosh-bootloader: the `lbs` and `create-lbs` commands and the bosh-init manifest builder

A shallow embedding of `commands/lbs.go`, of `create-lbs` and of the manifest
builder.  Collaborators (credential validator,
infrastructure manager, ...) are passed in as records of functions, exactly as
the Go code receives them through its constructor; every call made on a
collaborator and every write to stdout is recorded, in order, in a list of
`Call`s, so that "was never called" and "was written" are statements about
that list.
-/

namespace bbl

/-- A Go `error` value: `errors.New msg` and `fmt.Errorf` build one from its message. -/
structure Error where
  msg : String
deriving DecidableEq, Repr

/-- The Go call `errors.New(text)`. -/
def errors.New (text : String) : Error := ⟨text⟩

/-! ## fmt -/

/-- The operand list ran out: Go prints `%!s(MISSING)` for the verb. -/
def fmt.missing : List Char := "%!s(MISSING)".data

/-- Expansion of a format string, character by character, for the verb `%s`
applied to string operands (the only verb `lbs.go` uses). -/
def fmt.expand : List Char → List String → List Char
  | [], _ => []
  | '%' :: 's' :: rest, [] => fmt.missing ++ fmt.expand rest []
  | '%' :: 's' :: rest, a :: as => a.data ++ fmt.expand rest as
  | ch :: rest, as => ch :: fmt.expand rest as

/-- The Go call `fmt.Sprintf(format, a...)` with string operands. -/
def fmt.Sprintf (format : String) (a : List String) : String :=
  ⟨fmt.expand format.data a⟩

/-! ## storage.State -/

namespace storage

structure AWS where
  AccessKeyID : String
  SecretAccessKey : String
  Region : String
deriving DecidableEq, Repr

structure KeyPair where
  Name : String
  PublicKey : String
  PrivateKey : String
deriving DecidableEq, Repr

structure BOSH where
  DirectorAddress : String
  DirectorUsername : String
  DirectorPassword : String
  DirectorSSLCA : String
  DirectorSSLCertificate : String
  DirectorSSLPrivateKey : String
  Credentials : List (String × String)
  Manifest : String
deriving DecidableEq, Repr

structure Stack where
  Name : String
  LBType : String
  CertificateName : String
deriving DecidableEq, Repr

structure State where
  Version : Int
  AWS : AWS
  KeyPair : KeyPair
  BOSH : BOSH
  Stack : Stack
deriving DecidableEq, Repr

end storage

/-! ## cloudformation.Stack -/

namespace cloudformation

/-- The described stack: a name and the `Outputs` map from string to string,
kept as an association list. -/
structure Stack where
  Name : String
  Outputs : List (String × String)
deriving DecidableEq, Repr

/-- Indexing a Go `map[string]string`: the value stored under `key`, or the
zero value `""` when the key is absent (also for a nil map). -/
def index (m : List (String × String)) (key : String) : String :=
  (m.lookup key).getD ""

end cloudformation

/-! ## iam.Certificate, bosh.CloudConfigInput -/

namespace iam

/-- A described certificate: its ARN. -/
structure Certificate where
  ARN : String
deriving DecidableEq, Repr

end iam

namespace bosh

/-- The carrier between the configurator and the cloud config manager. -/
structure CloudConfigInput where
  AZs : List String
  LBType : String
deriving DecidableEq, Repr

/-- A BOSH client as far as `create-lbs` uses it: the outcome of the info probe. -/
structure Client where
  Info : Option Error

end bosh

/-! ## Recorded calls -/

/-- One observable action of a command: a call on a collaborator or a write. -/
inductive Call where
  | awsCredentialValidate
  | certificateValidate (command certPath keyPath chainPath : String)
  | infrastructureDescribe (stackName : String)
  | infrastructureExists (stackName : String)
  | infrastructureUpdate (keyPairName : String) (numberOfAZs : Nat)
      (lbType lbCertificateARN stackName : String)
  | certificateCreate (certPath keyPath chainPath : String)
  | certificateDescribe (certificateName : String)
  | retrieveAZs (region : String)
  | boshClient (directorAddress directorUsername directorPassword : String)
  | boshInfo
  | configure (stack : cloudformation.Stack) (azs : List String)
  | cloudConfigUpdate (input : bosh.CloudConfigInput)
  | loggerStep (message : String)
  | loggerPrintln (message : String)
  | stdoutWrite (bytes : String)
deriving DecidableEq, Repr

/-- The bytes that reached stdout: the writes of a call list, concatenated in order. -/
def stdoutBytes : List Call → String
  | [] => ""
  | Call.stdoutWrite b :: rest => b ++ stdoutBytes rest
  | _ :: rest => stdoutBytes rest

/-- The messages handed to `logger.Println`, in order. -/
def printlnMessages : List Call → List String
  | [] => []
  | Call.loggerPrintln m :: rest => m :: printlnMessages rest
  | _ :: rest => printlnMessages rest

/-- Whether a call is a write to stdout. -/
def Call.isWrite : Call → Bool
  | Call.stdoutWrite _ => true
  | _ => false

/-- Whether a call is one of the mutating calls `certificateManager.Create`,
`infrastructureManager.Update` or `cloudConfigManager.Update`. -/
def Call.isMutating : Call → Bool
  | Call.certificateCreate _ _ _ => true
  | Call.infrastructureUpdate _ _ _ _ _ => true
  | Call.cloudConfigUpdate _ => true
  | _ => false

/-- Whether a call is `infrastructureManager.Describe`. -/
def Call.isDescribe : Call → Bool
  | Call.infrastructureDescribe _ => true
  | _ => false

/-- What `Execute` hands back, `(storage.State, error)`, with the calls it made. -/
structure Outcome where
  state : storage.State
  err : Option Error
  calls : List Call
deriving DecidableEq, Repr

/-! ## commands/lbs.go -/

namespace commands

/-- The interface `awsCredentialValidator`: `Validate() error`. -/
structure awsCredentialValidator where
  Validate : Option Error

/-- The interface `infrastructureManager`: `Describe(stackName)`, which `lbs` calls,
and `Exists(stackName)` and `Update(keyPairName, numberOfAZs, lbType,
lbCertificateARN, stackName)` (§4.10), which `create-lbs` calls. -/
structure infrastructureManager where
  Describe : String → Except Error cloudformation.Stack
  Exists : String → Except Error Bool
  Update : String → Nat → String → String → String → Except Error cloudformation.Stack

structure LBs where
  awsCredentialValidator : awsCredentialValidator
  infrastructureManager : infrastructureManager

/-- The Go call `fmt.Fprintf(c.stdout, format, a...)`: one write of the formatted
bytes.  The source discards what the call returns. -/
def Fprintf (format : String) (a : List String) : Call :=
  Call.stdoutWrite (fmt.Sprintf format a)

/-- Method `func (c LBs) Execute(subcommandFlags []string, state storage.State)
(storage.State, error)` of `commands/lbs.go`.  The flags are not read. -/
def LBs.Execute (c : LBs) (subcommandFlags : List String) (state : storage.State) : Outcome :=
  let _ := subcommandFlags
  let calls := [Call.awsCredentialValidate]
  match c.awsCredentialValidator.Validate with
  | some err => ⟨state, some err, calls⟩
  | none =>
    let calls := calls ++ [Call.infrastructureDescribe state.Stack.Name]
    match c.infrastructureManager.Describe state.Stack.Name with
    | Except.error err => ⟨state, some err, calls⟩
    | Except.ok stack =>
      if state.Stack.LBType = "cf" then
        let calls := calls ++
          [Fprintf "CF Router LB: %s [%s]\n"
            [cloudformation.index stack.Outputs "CFRouterLoadBalancer",
             cloudformation.index stack.Outputs "CFRouterLoadBalancerURL"]]
        let calls := calls ++
          [Fprintf "CF SSH Proxy LB: %s [%s]\n"
            [cloudformation.index stack.Outputs "CFSSHProxyLoadBalancer",
             cloudformation.index stack.Outputs "CFSSHProxyLoadBalancerURL"]]
        ⟨state, none, calls⟩
      else if state.Stack.LBType = "concourse" then
        let calls := calls ++
          [Fprintf "Concourse LB: %s [%s]\n"
            [cloudformation.index stack.Outputs "ConcourseLoadBalancer",
             cloudformation.index stack.Outputs "ConcourseLoadBalancerURL"]]
        ⟨state, none, calls⟩
      else
        ⟨state, some (errors.New "no lbs found"), calls⟩

end commands

/-! ## create-lbs -/

namespace commands

/-- The flags of `create-lbs` after parsing. -/
structure lbConfig where
  lbType : String
  certPath : String
  keyPath : String
  chainPath : String
  skipIfExists : Bool
deriving DecidableEq, Repr

/-- A flag token without its leading dashes, as diagnostics print it. -/
def flagName (flag : String) : String :=
  ⟨flag.data.dropWhile (fun ch => ch = '-')⟩

/-- Whether the flag takes a value: `--type`, `--cert`, `--key`, `--chain`. -/
def takesValue (flag : String) : Bool :=
  flag = "--type" || flag = "--cert" || flag = "--key" || flag = "--chain"

/-- Store the value of a value flag in the configuration. -/
def lbConfig.set (config : lbConfig) (flag value : String) : lbConfig :=
  if flag = "--type" then { config with lbType := value }
  else if flag = "--cert" then { config with certPath := value }
  else if flag = "--key" then { config with keyPath := value }
  else { config with chainPath := value }

/-- Modelled from the spec: the flag parser of `create-lbs` is not among the
sources.  It accepts exactly the surface of §6,
`--type <t> --cert <path> --key <path> [--chain <path>] [--skip-if-exists]`,
in any order; a token outside that surface is refused with the diagnostic the
test suite shows for `--invalid-flag`, `flag provided but not defined: -invalid-flag`. -/
def parseFlags : List String → lbConfig → Except Error lbConfig
  | [], config => Except.ok config
  | flag :: rest, config =>
    if flag = "--skip-if-exists" then
      parseFlags rest { config with skipIfExists := true }
    else if takesValue flag then
      match rest with
      | [] => Except.error ⟨"flag needs an argument: -" ++ flagName flag⟩
      | value :: rest => parseFlags rest (config.set flag value)
    else
      Except.error ⟨"flag provided but not defined: -" ++ flagName flag⟩

/-- The configuration before any flag is read. -/
def lbConfig.zero : lbConfig := ⟨"", "", "", "", false⟩

/-- The sentinel `BBLNotFound` (§7). -/
def BBLNotFound : Error :=
  errors.New "bbl environment was not found, please create the environment first by running: bbl up"

/-- Whether a state load balancer type names an attached load balancer. -/
def lbExists (lbType : String) : Bool :=
  lbType = "cf" || lbType = "concourse"

structure certificateValidator where
  Validate : String → String → String → String → Option Error

structure certificateManager where
  Create : String → String → String → Except Error String
  Describe : String → Except Error iam.Certificate

structure availabilityZoneRetriever where
  Retrieve : String → Except Error (List String)

structure boshClientProvider where
  Client : String → String → String → bosh.Client

structure boshCloudConfigurator where
  Configure : cloudformation.Stack → List String → bosh.CloudConfigInput

structure cloudConfigManager where
  Update : bosh.CloudConfigInput → Option Error

/-- The collaborators handed to `NewCreateLBs` in the test suite (the logger
only receives messages, which are recorded as calls). -/
structure CreateLBs where
  awsCredentialValidator : awsCredentialValidator
  certificateManager : certificateManager
  infrastructureManager : infrastructureManager
  availabilityZoneRetriever : availabilityZoneRetriever
  boshClientProvider : boshClientProvider
  boshCloudConfigurator : boshCloudConfigurator
  cloudConfigManager : cloudConfigManager
  certificateValidator : certificateValidator

/-- Modelled from the spec: steps 1 to 6 of §4.4, run once every precondition
holds.  The certificate name is recorded in the state as soon as the upload
returns (§4.2: progress already made is not lost); lb_type is set at the end. -/
def CreateLBs.attach (c : CreateLBs) (config : lbConfig) (state : storage.State)
    (calls : List Call) : Outcome :=
  let calls := calls ++ [Call.loggerStep "uploading certificate",
    Call.certificateCreate config.certPath config.keyPath config.chainPath]
  match c.certificateManager.Create config.certPath config.keyPath config.chainPath with
  | Except.error err => ⟨state, some err, calls⟩
  | Except.ok certificateName =>
    let state := { state with Stack := { state.Stack with CertificateName := certificateName } }
    let calls := calls ++ [Call.certificateDescribe certificateName]
    match c.certificateManager.Describe certificateName with
    | Except.error err => ⟨state, some err, calls⟩
    | Except.ok certificate =>
      let calls := calls ++ [Call.retrieveAZs state.AWS.Region]
      match c.availabilityZoneRetriever.Retrieve state.AWS.Region with
      | Except.error err => ⟨state, some err, calls⟩
      | Except.ok azs =>
        let calls := calls ++ [Call.infrastructureUpdate state.KeyPair.Name azs.length
          config.lbType certificate.ARN state.Stack.Name]
        match c.infrastructureManager.Update state.KeyPair.Name azs.length config.lbType
            certificate.ARN state.Stack.Name with
        | Except.error err => ⟨state, some err, calls⟩
        | Except.ok stack =>
          let input := c.boshCloudConfigurator.Configure stack azs
          let calls := calls ++ [Call.configure stack azs, Call.cloudConfigUpdate input]
          match c.cloudConfigManager.Update input with
          | some err => ⟨state, some err, calls⟩
          | none =>
            ⟨{ state with Stack := { state.Stack with LBType := config.lbType } }, none, calls⟩

/-- Modelled from the spec: `CreateLBs.Execute` is not among the sources (only
its test suite is).  The preconditions of §4.4 are checked in the order the
spec lists them and the first failure aborts; the flags are parsed after the
credentials are validated, since precondition 2 needs the parsed paths. -/
def CreateLBs.Execute (c : CreateLBs) (subcommandFlags : List String)
    (state : storage.State) : Outcome :=
  let calls := [Call.awsCredentialValidate]
  match c.awsCredentialValidator.Validate with
  | some err => ⟨state, some err, calls⟩
  | none =>
    match parseFlags subcommandFlags lbConfig.zero with
    | Except.error err => ⟨state, some err, calls⟩
    | Except.ok config =>
      let calls := calls ++ [Call.certificateValidate "unsupported-create-lbs"
        config.certPath config.keyPath config.chainPath]
      match c.certificateValidator.Validate "unsupported-create-lbs"
          config.certPath config.keyPath config.chainPath with
      | some err => ⟨state, some err, calls⟩
      | none =>
        if ¬ (config.lbType = "concourse" ∨ config.lbType = "cf") then
          ⟨state, some ⟨"\"" ++ config.lbType
            ++ "\" is not a valid lb type, valid lb types are: concourse and cf"⟩, calls⟩
        else if lbExists state.Stack.LBType then
          if config.skipIfExists then
            ⟨state, none, calls ++ [Call.loggerPrintln
              ("lb type \"" ++ state.Stack.LBType ++ "\" exists, skipping...")]⟩
          else
            ⟨state, some ⟨"bbl already has a " ++ state.Stack.LBType ++
              " load balancer attached, please remove the previous load balancer before attaching a new one"⟩,
              calls⟩
        else
          let calls := calls ++ [Call.infrastructureExists state.Stack.Name]
          match c.infrastructureManager.Exists state.Stack.Name with
          | Except.error err => ⟨state, some err, calls⟩
          | Except.ok false => ⟨state, some BBLNotFound, calls⟩
          | Except.ok true =>
            let calls := calls ++ [Call.boshClient state.BOSH.DirectorAddress
              state.BOSH.DirectorUsername state.BOSH.DirectorPassword, Call.boshInfo]
            match (c.boshClientProvider.Client state.BOSH.DirectorAddress
                state.BOSH.DirectorUsername state.BOSH.DirectorPassword).Info with
            | some _ => ⟨state, some BBLNotFound, calls⟩
            | none => c.attach config state calls

end commands

/-! ## boshinit.ManifestBuilder -/

namespace boshinit

/-- The derived view over state that the manifest builder reads (§3). -/
structure ManifestProperties where
  Region : String
  SubnetID : String
  AvailabilityZones : List String
  ElasticIP : String
  DirectorUsername : String
  DirectorPassword : String
  KeyPairName : String
  PrivateKey : String
deriving DecidableEq, Repr

structure Release where
  Name : String
deriving DecidableEq, Repr

structure ResourcePool where
  Name : String
deriving DecidableEq, Repr

structure DiskPool where
  Name : String
deriving DecidableEq, Repr

structure SubnetCloudProperties where
  Subnet : String
deriving DecidableEq, Repr

structure Subnet where
  CloudProperties : SubnetCloudProperties
deriving DecidableEq, Repr

structure Network where
  Subnets : List Subnet
deriving DecidableEq, Repr

structure Job where
  Name : String
deriving DecidableEq, Repr

structure Template where
  Name : String
deriving DecidableEq, Repr

structure CloudProvider where
  Template : Template
deriving DecidableEq, Repr

structure Manifest where
  Name : String
  Releases : List Release
  ResourcePools : List ResourcePool
  DiskPools : List DiskPool
  Networks : List Network
  Jobs : List Job
  CloudProvider : CloudProvider
deriving DecidableEq, Repr

/-- What `Build` produces: the manifest, and the messages it gave the logger. -/
structure Built where
  manifest : Manifest
  calls : List Call
deriving DecidableEq, Repr

/-- Modelled from the spec: `ManifestBuilder.Build` is not among the sources
(only its test suite is).  §4.9 fixes the sections below and the step message
given to the logger; each list is given the one entry the spec describes. -/
def ManifestBuilder.Build (manifestProperties : ManifestProperties) : Built :=
  { manifest :=
      { Name := "bosh"
        Releases := [⟨"bosh"⟩]
        ResourcePools := [⟨"vms"⟩]
        DiskPools := [⟨"disks"⟩]
        Networks := [⟨[⟨⟨manifestProperties.SubnetID⟩⟩]⟩]
        Jobs := [⟨"bosh"⟩]
        CloudProvider := ⟨⟨"aws_cpi"⟩⟩ }
    calls := [Call.loggerStep "generating bosh-init manifest"] }

end boshinit

/-! ## Sample inputs -/

namespace sample

/-- A state tracking the stack `some-stack` with the given load balancer type. -/
def stateWith (lbType : String) : storage.State :=
  ⟨3, ⟨"some-access-key-id", "some-secret-access-key", "some-region"⟩,
    ⟨"some-key-pair", "", ""⟩,
    ⟨"some-director-address", "some-director-username", "some-director-password",
      "", "", "", [], ""⟩,
    ⟨"some-stack", lbType, ""⟩⟩

/-- A described stack carrying all six load balancer outputs. -/
def stack : cloudformation.Stack :=
  ⟨"some-stack",
    [("CFRouterLoadBalancer", "r"), ("CFRouterLoadBalancerURL", "r.example"),
     ("CFSSHProxyLoadBalancer", "s"), ("CFSSHProxyLoadBalancerURL", "s.example"),
     ("ConcourseLoadBalancer", "c"), ("ConcourseLoadBalancerURL", "c.example")]⟩

/-- An infrastructure manager whose calls all succeed. -/
def manager : commands.infrastructureManager :=
  ⟨fun _ => Except.ok stack, fun _ => Except.ok true, fun _ _ _ _ _ => Except.ok stack⟩

/-- An infrastructure manager whose `Describe` fails. -/
def failingManager : commands.infrastructureManager :=
  ⟨fun _ => Except.error ⟨"failed to describe stack"⟩, fun _ => Except.ok true,
    fun _ _ _ _ _ => Except.ok stack⟩

/-- The `lbs` command over collaborators that succeed. -/
def lbs : commands.LBs := ⟨⟨none⟩, manager⟩

/-- The `lbs` command whose credential validator fails. -/
def lbsBadCredentials : commands.LBs := ⟨⟨some ⟨"failed to validate aws credentials"⟩⟩, manager⟩

/-- The `lbs` command whose `Describe` fails. -/
def lbsBadDescribe : commands.LBs := ⟨⟨none⟩, failingManager⟩

/-- Collaborators of `create-lbs` that all succeed, as the test suite sets them up. -/
def createLBs : commands.CreateLBs :=
  { awsCredentialValidator := ⟨none⟩
    certificateManager :=
      ⟨fun _ _ _ => Except.ok "some-certificate-name", fun _ => Except.ok ⟨"some-certificate-arn"⟩⟩
    infrastructureManager := manager
    availabilityZoneRetriever := ⟨fun _ => Except.ok ["a", "b", "c"]⟩
    boshClientProvider := ⟨fun _ _ _ => ⟨none⟩⟩
    boshCloudConfigurator := ⟨fun _ azs => ⟨azs, "concourse"⟩⟩
    cloudConfigManager := ⟨fun _ => none⟩
    certificateValidator := ⟨fun _ _ _ _ => none⟩ }

/-- A described stack whose `Outputs` map is empty (or nil). -/
def emptyStack : cloudformation.Stack := ⟨"some-stack", []⟩

/-- A described stack whose `Outputs` hold the CF router name and nothing else. -/
def routerOnlyStack : cloudformation.Stack :=
  ⟨"some-stack", [("CFRouterLoadBalancer", "r"), ("BOSHSubnet", "subnet-12345")]⟩

/-- The `lbs` command over a credential validator that succeeds and an
infrastructure manager that describes the given stack. -/
def lbsDescribing (described : cloudformation.Stack) : commands.LBs :=
  ⟨⟨none⟩, ⟨fun _ => Except.ok described, fun _ => Except.ok true,
    fun _ _ _ _ _ => Except.ok described⟩⟩

/-- The argument list of the test suite, attaching a concourse load balancer. -/
def concourseArgs : List String :=
  ["--type", "concourse", "--cert", "temp/some-cert.crt", "--key", "temp/some-key.key"]

end sample

/-! ## Formatting lemmas -/

/-- A format with two `%s` verbs expands to its three literal pieces around the operands. -/
theorem fmt.Sprintf_two (pre mid post : String) (a b : String) (format : String)
    (h : fmt.expand format.data [a, b]
      = pre.data ++ (a.data ++ (mid.data ++ (b.data ++ post.data)))) :
    fmt.Sprintf format [a, b] = pre ++ a ++ mid ++ b ++ post := by
  apply String.ext
  simp [fmt.Sprintf, h, String.data_append]

theorem fmt.Sprintf_cfRouter (a b : String) :
    fmt.Sprintf "CF Router LB: %s [%s]\n" [a, b]
      = "CF Router LB: " ++ a ++ " [" ++ b ++ "]\n" :=
  fmt.Sprintf_two _ _ _ a b _ rfl

theorem fmt.Sprintf_cfSSHProxy (a b : String) :
    fmt.Sprintf "CF SSH Proxy LB: %s [%s]\n" [a, b]
      = "CF SSH Proxy LB: " ++ a ++ " [" ++ b ++ "]\n" :=
  fmt.Sprintf_two _ _ _ a b _ rfl

theorem fmt.Sprintf_concourse (a b : String) :
    fmt.Sprintf "Concourse LB: %s [%s]\n" [a, b]
      = "Concourse LB: " ++ a ++ " [" ++ b ++ "]\n" :=
  fmt.Sprintf_two _ _ _ a b _ rfl

/-! ## `lbs` -/

open commands

/-- C1: with lb_type "cf", when credential validation and Describe succeed, stdout
receives exactly the CF router line followed by the CF SSH proxy line, each built
from the described stack outputs, and the returned error is nil. -/
theorem lbs_cf_prints_two_lines (c : LBs) (subcommandFlags : List String)
    (state : storage.State) (stack : cloudformation.Stack)
    (hlb : state.Stack.LBType = "cf")
    (hval : c.awsCredentialValidator.Validate = none)
    (hdesc : c.infrastructureManager.Describe state.Stack.Name = Except.ok stack) :
    stdoutBytes (c.Execute subcommandFlags state).calls
        = ("CF Router LB: " ++ cloudformation.index stack.Outputs "CFRouterLoadBalancer"
            ++ " [" ++ cloudformation.index stack.Outputs "CFRouterLoadBalancerURL" ++ "]\n")
          ++ ("CF SSH Proxy LB: " ++ cloudformation.index stack.Outputs "CFSSHProxyLoadBalancer"
            ++ " [" ++ cloudformation.index stack.Outputs "CFSSHProxyLoadBalancerURL" ++ "]\n")
      ∧ (c.Execute subcommandFlags state).err = none := by
  simp [LBs.Execute, hval, hdesc, hlb, stdoutBytes, Fprintf, fmt.Sprintf_cfRouter,
    fmt.Sprintf_cfSSHProxy]

theorem lbs_cf_prints_two_lines_witness :
    stdoutBytes (sample.lbs.Execute [] (sample.stateWith "cf")).calls
        = "CF Router LB: r [r.example]\nCF SSH Proxy LB: s [s.example]\n"
      ∧ (sample.lbs.Execute [] (sample.stateWith "cf")).err = none :=
  lbs_cf_prints_two_lines sample.lbs [] (sample.stateWith "cf") sample.stack rfl rfl rfl

/-- C2: with lb_type "concourse", when credential validation and Describe succeed,
stdout receives exactly the single Concourse line built from the described stack
outputs, and the returned error is nil. -/
theorem lbs_concourse_prints_one_line (c : LBs) (subcommandFlags : List String)
    (state : storage.State) (stack : cloudformation.Stack)
    (hlb : state.Stack.LBType = "concourse")
    (hval : c.awsCredentialValidator.Validate = none)
    (hdesc : c.infrastructureManager.Describe state.Stack.Name = Except.ok stack) :
    stdoutBytes (c.Execute subcommandFlags state).calls
        = "Concourse LB: " ++ cloudformation.index stack.Outputs "ConcourseLoadBalancer"
            ++ " [" ++ cloudformation.index stack.Outputs "ConcourseLoadBalancerURL" ++ "]\n"
      ∧ (c.Execute subcommandFlags state).err = none := by
  simp [LBs.Execute, hval, hdesc, hlb, stdoutBytes, Fprintf, fmt.Sprintf_concourse]

theorem lbs_concourse_prints_one_line_witness :
    stdoutBytes (sample.lbs.Execute ["ignored"] (sample.stateWith "concourse")).calls
        = "Concourse LB: c [c.example]\n"
      ∧ (sample.lbs.Execute ["ignored"] (sample.stateWith "concourse")).err = none :=
  lbs_concourse_prints_one_line sample.lbs ["ignored"] (sample.stateWith "concourse")
    sample.stack rfl rfl rfl

/-- C3: with an lb_type other than "cf" and "concourse", when credential validation
and Describe succeed, Execute returns the error "no lbs found" and makes no write to
stdout. -/
theorem lbs_no_lbs_found (c : LBs) (subcommandFlags : List String)
    (state : storage.State) (stack : cloudformation.Stack)
    (hcf : state.Stack.LBType ≠ "cf") (hconcourse : state.Stack.LBType ≠ "concourse")
    (hval : c.awsCredentialValidator.Validate = none)
    (hdesc : c.infrastructureManager.Describe state.Stack.Name = Except.ok stack) :
    (c.Execute subcommandFlags state).err = some ⟨"no lbs found"⟩
      ∧ stdoutBytes (c.Execute subcommandFlags state).calls = ""
      ∧ ∀ call ∈ (c.Execute subcommandFlags state).calls, call.isWrite = false := by
  simp [LBs.Execute, hval, hdesc, hcf, hconcourse, stdoutBytes, errors.New, Call.isWrite]

theorem lbs_no_lbs_found_witness :
    (sample.lbs.Execute [] (sample.stateWith "none")).err = some ⟨"no lbs found"⟩
      ∧ stdoutBytes (sample.lbs.Execute [] (sample.stateWith "none")).calls = ""
      ∧ ∀ call ∈ (sample.lbs.Execute [] (sample.stateWith "none")).calls,
          call.isWrite = false :=
  lbs_no_lbs_found sample.lbs [] (sample.stateWith "none") sample.stack
    (by decide) (by decide) rfl rfl

/-- C4: Execute of lbs returns the state it was given, whatever the arguments and
whatever the credential validator and the infrastructure manager answer. -/
theorem lbs_state_unchanged (c : LBs) (subcommandFlags : List String)
    (state : storage.State) :
    (c.Execute subcommandFlags state).state = state := by
  unfold LBs.Execute
  split
  · rfl
  · split
    · rfl
    · dsimp only
      split_ifs <;> rfl

/-- C5: when the credential validator returns the error e, Execute of lbs returns
exactly e, never calls Describe, and writes nothing to stdout. -/
theorem lbs_credentials_fail_fast (c : LBs) (subcommandFlags : List String)
    (state : storage.State) (e : Error)
    (hval : c.awsCredentialValidator.Validate = some e) :
    (c.Execute subcommandFlags state).err = some e
      ∧ (∀ call ∈ (c.Execute subcommandFlags state).calls, call.isDescribe = false)
      ∧ (∀ call ∈ (c.Execute subcommandFlags state).calls, call.isWrite = false)
      ∧ stdoutBytes (c.Execute subcommandFlags state).calls = "" := by
  simp [LBs.Execute, hval, stdoutBytes, Call.isDescribe, Call.isWrite]

theorem lbs_credentials_fail_fast_witness :
    (sample.lbsBadCredentials.Execute [] (sample.stateWith "cf")).err
        = some ⟨"failed to validate aws credentials"⟩
      ∧ (∀ call ∈ (sample.lbsBadCredentials.Execute [] (sample.stateWith "cf")).calls,
          call.isDescribe = false)
      ∧ (∀ call ∈ (sample.lbsBadCredentials.Execute [] (sample.stateWith "cf")).calls,
          call.isWrite = false)
      ∧ stdoutBytes (sample.lbsBadCredentials.Execute [] (sample.stateWith "cf")).calls = "" :=
  lbs_credentials_fail_fast sample.lbsBadCredentials [] (sample.stateWith "cf")
    ⟨"failed to validate aws credentials"⟩ rfl

/-- C10: when credential validation succeeds and Describe, called with the stack
name of the state, returns the error e, Execute of lbs returns exactly e and writes
nothing to stdout, whatever the lb_type of the state. -/
theorem lbs_describe_error_first (c : LBs) (subcommandFlags : List String)
    (state : storage.State) (e : Error)
    (hval : c.awsCredentialValidator.Validate = none)
    (hdesc : c.infrastructureManager.Describe state.Stack.Name = Except.error e) :
    (c.Execute subcommandFlags state).err = some e
      ∧ Call.infrastructureDescribe state.Stack.Name ∈ (c.Execute subcommandFlags state).calls
      ∧ (∀ call ∈ (c.Execute subcommandFlags state).calls, call.isWrite = false)
      ∧ stdoutBytes (c.Execute subcommandFlags state).calls = "" := by
  simp [LBs.Execute, hval, hdesc, stdoutBytes, Call.isWrite]

theorem lbs_describe_error_first_witness :
    (sample.lbsBadDescribe.Execute [] (sample.stateWith "none")).err
        = some ⟨"failed to describe stack"⟩
      ∧ Call.infrastructureDescribe "some-stack"
          ∈ (sample.lbsBadDescribe.Execute [] (sample.stateWith "none")).calls
      ∧ (∀ call ∈ (sample.lbsBadDescribe.Execute [] (sample.stateWith "none")).calls,
          call.isWrite = false)
      ∧ stdoutBytes (sample.lbsBadDescribe.Execute [] (sample.stateWith "none")).calls = "" :=
  lbs_describe_error_first sample.lbsBadDescribe [] (sample.stateWith "none")
    ⟨"failed to describe stack"⟩ rfl rfl

/-! ## `create-lbs` -/

/-- Storing the value of a value flag leaves `skipIfExists` alone. -/
theorem lbConfig.set_skipIfExists (config : lbConfig) (flag value : String) :
    (config.set flag value).skipIfExists = config.skipIfExists := by
  unfold lbConfig.set
  split_ifs <;> rfl

/-- An argument list without the token `--skip-if-exists` never sets the flag. -/
theorem parseFlags_skipIfExists (args : List String) (config result : lbConfig)
    (hnot : "--skip-if-exists" ∉ args)
    (hparse : parseFlags args config = Except.ok result) :
    result.skipIfExists = config.skipIfExists := by
  induction args, config using parseFlags.induct with
  | case1 config =>
    simp [parseFlags] at hparse
    rw [hparse]
  | case2 rest config ih =>
    simp at hnot
  | case3 flag config hflag hvalue =>
    simp [parseFlags, hflag, hvalue] at hparse
  | case4 flag config hflag hvalue value rest ih =>
    simp [parseFlags, hflag, hvalue] at hparse
    have hrest : "--skip-if-exists" ∉ rest := by
      intro hmem
      exact hnot (by simp [hmem])
    rw [ih hrest hparse, lbConfig.set_skipIfExists]
  | case5 flag rest config hflag hvalue =>
    have hv : takesValue flag = false := by simpa using hvalue
    unfold parseFlags at hparse
    simp [hflag, hv] at hparse

/-- While a load balancer is attached and `--skip-if-exists` is not set, `create-lbs`
stops at a precondition: it fails, having made no mutating call. -/
theorem CreateLBs.Execute_attached (c : CreateLBs) (args : List String)
    (state : storage.State) (hlb : lbExists state.Stack.LBType = true)
    (hskip : ∀ config, parseFlags args lbConfig.zero = Except.ok config →
      config.skipIfExists = false) :
    (c.Execute args state).err ≠ none
      ∧ ∀ call ∈ (c.Execute args state).calls, call.isMutating = false := by
  unfold CreateLBs.Execute
  split
  · simp [Call.isMutating]
  · split
    · simp [Call.isMutating]
    · rename_i config hparse
      have hs := hskip config hparse
      dsimp only
      split
      · simp [Call.isMutating]
      · split_ifs <;> simp_all [Call.isMutating]

/-- C6: for an argument list without `--skip-if-exists` and a state whose lb_type is
"cf" or "concourse", Execute of create-lbs returns a non-nil error and calls neither
the certificate manager Create, nor the infrastructure manager Update, nor the cloud
config manager Update; and when the credential check, the flag parsing, the
certificate check and the `--type` check all pass, the error message is
"bbl already has a <t> load balancer attached, please remove the previous load
balancer before attaching a new one" with <t> the lb_type of the state. -/
theorem createLBs_refuses_second_lb (c : CreateLBs) (args : List String)
    (state : storage.State)
    (hskip : "--skip-if-exists" ∉ args)
    (hlb : state.Stack.LBType = "cf" ∨ state.Stack.LBType = "concourse") :
    (c.Execute args state).err ≠ none
      ∧ (∀ call ∈ (c.Execute args state).calls, call.isMutating = false)
      ∧ ∀ config : lbConfig,
          c.awsCredentialValidator.Validate = none →
          parseFlags args lbConfig.zero = Except.ok config →
          c.certificateValidator.Validate "unsupported-create-lbs"
            config.certPath config.keyPath config.chainPath = none →
          (config.lbType = "cf" ∨ config.lbType = "concourse") →
          (c.Execute args state).err = some ⟨"bbl already has a " ++ state.Stack.LBType ++
            " load balancer attached, please remove the previous load balancer before attaching a new one"⟩ := by
  have hex : lbExists state.Stack.LBType = true := by
    rcases hlb with h | h <;> simp [lbExists, h]
  have hoff : ∀ config, parseFlags args lbConfig.zero = Except.ok config →
      config.skipIfExists = false := fun config hparse =>
    parseFlags_skipIfExists args lbConfig.zero config hskip hparse
  refine ⟨(CreateLBs.Execute_attached c args state hex hoff).1,
    (CreateLBs.Execute_attached c args state hex hoff).2, ?_⟩
  intro config hval hparse hcert htype
  have hs := hoff config hparse
  have htype2 : config.lbType = "concourse" ∨ config.lbType = "cf" := htype.symm
  simp [CreateLBs.Execute, hval, hparse, hcert, htype2, hex, hs]

theorem createLBs_refuses_second_lb_witness :
    (sample.createLBs.Execute sample.concourseArgs (sample.stateWith "cf")).err
        = some ⟨"bbl already has a cf load balancer attached, please remove the previous load balancer before attaching a new one"⟩
      ∧ (sample.createLBs.Execute sample.concourseArgs (sample.stateWith "cf")).err ≠ none
      ∧ ∀ call ∈ (sample.createLBs.Execute sample.concourseArgs (sample.stateWith "cf")).calls,
          call.isMutating = false :=
  have h := createLBs_refuses_second_lb sample.createLBs sample.concourseArgs
    (sample.stateWith "cf") (by decide) (Or.inl rfl)
  ⟨h.2.2 ⟨"concourse", "temp/some-cert.crt", "temp/some-key.key", "", false⟩
      rfl rfl rfl (Or.inr rfl), h.1, h.2.1⟩

/-- C7: for a state whose lb_type is "cf" or "concourse" and an argument list that
parses to a valid `--type` with `--skip-if-exists` set, when the credential and
certificate validators succeed, Execute of create-lbs returns a nil error and the
input state, gives Println exactly the message `lb type "<t>" exists, skipping...`
with <t> the lb_type of the state, and calls neither the infrastructure manager
Update nor the certificate manager Create (nor the cloud config manager Update). -/
theorem createLBs_skip_if_exists_noop (c : CreateLBs) (args : List String)
    (state : storage.State) (config : lbConfig)
    (hlb : state.Stack.LBType = "cf" ∨ state.Stack.LBType = "concourse")
    (hval : c.awsCredentialValidator.Validate = none)
    (hparse : parseFlags args lbConfig.zero = Except.ok config)
    (hcert : c.certificateValidator.Validate "unsupported-create-lbs"
      config.certPath config.keyPath config.chainPath = none)
    (htype : config.lbType = "cf" ∨ config.lbType = "concourse")
    (hskip : config.skipIfExists = true) :
    (c.Execute args state).err = none
      ∧ (c.Execute args state).state = state
      ∧ printlnMessages (c.Execute args state).calls
          = ["lb type \"" ++ state.Stack.LBType ++ "\" exists, skipping..."]
      ∧ ∀ call ∈ (c.Execute args state).calls, call.isMutating = false := by
  have hex : lbExists state.Stack.LBType = true := by
    rcases hlb with h | h <;> simp [lbExists, h]
  have htype2 : config.lbType = "concourse" ∨ config.lbType = "cf" := htype.symm
  simp [CreateLBs.Execute, hval, hparse, hcert, htype2, hex, hskip, printlnMessages,
    Call.isMutating]

theorem createLBs_skip_if_exists_noop_witness :
    (sample.createLBs.Execute (sample.concourseArgs ++ ["--skip-if-exists"])
        (sample.stateWith "cf")).err = none
      ∧ (sample.createLBs.Execute (sample.concourseArgs ++ ["--skip-if-exists"])
        (sample.stateWith "cf")).state = sample.stateWith "cf"
      ∧ printlnMessages (sample.createLBs.Execute (sample.concourseArgs ++ ["--skip-if-exists"])
        (sample.stateWith "cf")).calls = ["lb type \"cf\" exists, skipping..."]
      ∧ ∀ call ∈ (sample.createLBs.Execute (sample.concourseArgs ++ ["--skip-if-exists"])
        (sample.stateWith "cf")).calls, call.isMutating = false :=
  createLBs_skip_if_exists_noop sample.createLBs (sample.concourseArgs ++ ["--skip-if-exists"])
    (sample.stateWith "cf") ⟨"concourse", "temp/some-cert.crt", "temp/some-key.key", "", true⟩
    (Or.inl rfl) rfl rfl rfl (Or.inr rfl) rfl

/-- C8: for an argument list whose `--type` value t is neither "cf" nor "concourse",
whatever the state and whether or not `--skip-if-exists` is set, when the credential
and certificate validators succeed, Execute of create-lbs fails with the message
`"<t>" is not a valid lb type, valid lb types are: concourse and cf` (t in double
quotes), creates no certificate and updates no stack. -/
theorem createLBs_rejects_unknown_type (c : CreateLBs) (args : List String)
    (state : storage.State) (config : lbConfig)
    (hval : c.awsCredentialValidator.Validate = none)
    (hparse : parseFlags args lbConfig.zero = Except.ok config)
    (hcert : c.certificateValidator.Validate "unsupported-create-lbs"
      config.certPath config.keyPath config.chainPath = none)
    (hcf : config.lbType ≠ "cf") (hconcourse : config.lbType ≠ "concourse") :
    (c.Execute args state).err
        = some ⟨"\"" ++ config.lbType
            ++ "\" is not a valid lb type, valid lb types are: concourse and cf"⟩
      ∧ (c.Execute args state).state = state
      ∧ ∀ call ∈ (c.Execute args state).calls, call.isMutating = false := by
  simp [CreateLBs.Execute, hval, hparse, hcert, hcf, hconcourse, Call.isMutating]

theorem createLBs_rejects_unknown_type_witness :
    (sample.createLBs.Execute
        ["--type", "some-invalid-lb", "--cert", "x", "--key", "y", "--skip-if-exists"]
        (sample.stateWith "cf")).err
        = some ⟨"\"some-invalid-lb\" is not a valid lb type, valid lb types are: concourse and cf"⟩
      ∧ (sample.createLBs.Execute
        ["--type", "some-invalid-lb", "--cert", "x", "--key", "y", "--skip-if-exists"]
        (sample.stateWith "cf")).state = sample.stateWith "cf"
      ∧ ∀ call ∈ (sample.createLBs.Execute
        ["--type", "some-invalid-lb", "--cert", "x", "--key", "y", "--skip-if-exists"]
        (sample.stateWith "cf")).calls, call.isMutating = false :=
  createLBs_rejects_unknown_type sample.createLBs
    ["--type", "some-invalid-lb", "--cert", "x", "--key", "y", "--skip-if-exists"]
    (sample.stateWith "cf") ⟨"some-invalid-lb", "x", "y", "", true⟩
    rfl rfl rfl (by decide) (by decide)

/-! ## Manifest builder -/

/-- C9: for every ManifestProperties p, Build(p) has Name "bosh", first release
"bosh", first resource pool "vms", first disk pool "disks", first job "bosh", cloud
provider template "aws_cpi", and the subnet of the first subnet of the first network
equal to the SubnetID of p; so each of those lists is non-empty. -/
theorem manifestBuilder_fixed_sections (p : boshinit.ManifestProperties) :
    (boshinit.ManifestBuilder.Build p).manifest.Name = "bosh"
      ∧ (boshinit.ManifestBuilder.Build p).manifest.Releases[0]?.map boshinit.Release.Name = some "bosh"
      ∧ (boshinit.ManifestBuilder.Build p).manifest.ResourcePools[0]?.map boshinit.ResourcePool.Name = some "vms"
      ∧ (boshinit.ManifestBuilder.Build p).manifest.DiskPools[0]?.map boshinit.DiskPool.Name = some "disks"
      ∧ (boshinit.ManifestBuilder.Build p).manifest.Jobs[0]?.map boshinit.Job.Name = some "bosh"
      ∧ (boshinit.ManifestBuilder.Build p).manifest.CloudProvider.Template.Name = "aws_cpi"
      ∧ ((boshinit.ManifestBuilder.Build p).manifest.Networks[0]?.bind fun network =>
          network.Subnets[0]?.map fun subnet => subnet.CloudProperties.Subnet)
          = some p.SubnetID := by
  simp [boshinit.ManifestBuilder.Build]

/-! ## `lbs` with missing outputs -/

/-- Indexing an outputs map at a key it does not hold gives the empty string. -/
theorem cloudformation.index_of_missing (m : List (String × String)) (key : String)
    (hmissing : key ∉ m.map Prod.fst) : cloudformation.index m key = "" := by
  induction m with
  | nil => rfl
  | cons entry rest ih =>
    obtain ⟨k, v⟩ := entry
    simp only [List.map_cons, List.mem_cons, not_or] at hmissing
    have hne : (key == k) = false := by simpa using hmissing.1
    have hrest := ih hmissing.2
    simp only [cloudformation.index, List.lookup_cons, hne] at hrest ⊢
    exact hrest

/-- C11: for a state whose lb_type is "cf" or "concourse" and any described stack,
when validation and Describe succeed, Execute of lbs returns a nil error and prints
the lines of the variant, where every load balancer key that the Outputs map lacks
contributes the empty string; for an empty (or nil) Outputs map the output is
"CF Router LB:  []" and "CF SSH Proxy LB:  []", or "Concourse LB:  []". -/
theorem lbs_missing_outputs_print_empty (c : LBs) (subcommandFlags : List String)
    (state : storage.State) (stack : cloudformation.Stack)
    (hlb : state.Stack.LBType = "cf" ∨ state.Stack.LBType = "concourse")
    (hval : c.awsCredentialValidator.Validate = none)
    (hdesc : c.infrastructureManager.Describe state.Stack.Name = Except.ok stack) :
    (c.Execute subcommandFlags state).err = none
      ∧ (state.Stack.LBType = "cf" →
          stdoutBytes (c.Execute subcommandFlags state).calls
            = ("CF Router LB: " ++ cloudformation.index stack.Outputs "CFRouterLoadBalancer"
                ++ " [" ++ cloudformation.index stack.Outputs "CFRouterLoadBalancerURL" ++ "]\n")
              ++ ("CF SSH Proxy LB: "
                ++ cloudformation.index stack.Outputs "CFSSHProxyLoadBalancer"
                ++ " [" ++ cloudformation.index stack.Outputs "CFSSHProxyLoadBalancerURL"
                ++ "]\n"))
      ∧ (state.Stack.LBType = "concourse" →
          stdoutBytes (c.Execute subcommandFlags state).calls
            = "Concourse LB: " ++ cloudformation.index stack.Outputs "ConcourseLoadBalancer"
                ++ " [" ++ cloudformation.index stack.Outputs "ConcourseLoadBalancerURL"
                ++ "]\n")
      ∧ (∀ key, key ∉ stack.Outputs.map Prod.fst → cloudformation.index stack.Outputs key = "")
      ∧ (stack.Outputs = [] →
          stdoutBytes (c.Execute subcommandFlags state).calls
            = if state.Stack.LBType = "cf" then "CF Router LB:  []\nCF SSH Proxy LB:  []\n"
              else "Concourse LB:  []\n") := by
  refine ⟨?_, ?_, ?_, ?_, ?_⟩
  · rcases hlb with h | h <;> simp [LBs.Execute, hval, hdesc, h]
  · intro h
    simp [LBs.Execute, hval, hdesc, h, stdoutBytes, Fprintf, fmt.Sprintf_cfRouter,
      fmt.Sprintf_cfSSHProxy]
  · intro h
    simp [LBs.Execute, hval, hdesc, h, stdoutBytes, Fprintf, fmt.Sprintf_concourse]
  · intro key hkey
    exact cloudformation.index_of_missing stack.Outputs key hkey
  · intro hempty
    rcases hlb with h | h
    · simp [LBs.Execute, hval, hdesc, h, hempty, stdoutBytes, Fprintf, fmt.Sprintf_cfRouter,
        fmt.Sprintf_cfSSHProxy, cloudformation.index]
    · simp [LBs.Execute, hval, hdesc, h, hempty, stdoutBytes, Fprintf, fmt.Sprintf_concourse,
        cloudformation.index]

theorem lbs_missing_outputs_print_empty_witness :
    ((sample.lbsDescribing sample.emptyStack).Execute [] (sample.stateWith "concourse")).err
        = none
      ∧ stdoutBytes
          ((sample.lbsDescribing sample.emptyStack).Execute [] (sample.stateWith "concourse")).calls
        = "Concourse LB:  []\n"
      ∧ ((sample.lbsDescribing sample.routerOnlyStack).Execute [] (sample.stateWith "cf")).err
        = none
      ∧ stdoutBytes
          ((sample.lbsDescribing sample.routerOnlyStack).Execute [] (sample.stateWith "cf")).calls
        = "CF Router LB: r []\nCF SSH Proxy LB:  []\n" :=
  have hempty := lbs_missing_outputs_print_empty (sample.lbsDescribing sample.emptyStack) []
    (sample.stateWith "concourse") sample.emptyStack (Or.inr rfl) rfl rfl
  have hrouter := lbs_missing_outputs_print_empty (sample.lbsDescribing sample.routerOnlyStack) []
    (sample.stateWith "cf") sample.routerOnlyStack (Or.inl rfl) rfl rfl
  ⟨hempty.1, hempty.2.2.2.2 rfl, hrouter.1, hrouter.2.1 rfl⟩

end bbl
